import Mathlib

/-!
# Verification of the GoBudget receipt-ingestion core

Shallow embedding of the receipt-ingestion pipeline of
`backend/app/routes/receipts.py` (plus the duplicate pre-check of
`backend/app/routes/outlook.py` and the `Receipt`/`ReceiptProduct` rows of
`backend/app/models.py`).

Modelling conventions:
* Python `float` money values are modelled as `ℚ`; `round(x, 2)` is modelled
  by `round2` (rounding half-up at the third decimal; the IEEE-754 tie
  behaviour of Python's banker rounding differs only on exact half-cent
  ties, which no statement below exercises).
* Python `str` dates are modelled as `List Char`; `datetime.strptime`
  against the five formats used by the code is modelled by `tryDateFormat`,
  reproducing CPython's `_strptime` regexes (`%d`: 1-2 digits valued 1..31,
  `%m`: 1-2 digits valued 1..12, `%Y`: exactly 4 digits) plus the
  `datetime` calendar validation (year ≥ 1, day ≤ days in month).
* A JSON key that is absent and a key that is present with value `null`
  are both modelled as `none` (the code reads every such field through
  `dict.get`, for which the two are indistinguishable; the `key in dict`
  validation check of `upload_receipts` is modelled as `isSome`).
* The database session is modelled by `Store` (committed receipt rows,
  committed product rows, and the autoincrement counter). `db.add`/`flush`
  followed by `commit` is an append to the store; `rollback` discards the
  pending writes.  A write-step error (e.g. an `IntegrityError` raised at
  `flush`/`commit`) is modelled by the oracle `wfail : Nat → Bool`, indexed
  by the candidate's position.
* File bytes are irrelevant to every claim and are not modelled; reading an
  `UploadFile` is assumed to succeed (the read-failure branch of
  `upload_receipts` lines 99-105 only prepends extra failure outcomes).
-/

/-- A calendar date as produced by `datetime.strptime(...).date()`. -/
structure ParsedDate where
  day : Nat
  month : Nat
  year : Nat
deriving DecidableEq, Repr

/-- Numeric value of a digit string (caller checks the digits). -/
def digitVal (s : List Char) : Nat :=
  s.foldl (fun n c => 10 * n + (c.toNat - 48)) 0

/-- All characters are ASCII digits. -/
def allDigits (s : List Char) : Bool :=
  s.all (fun c => c.isDigit)

/-- CPython `_strptime` field for `%d` (lo=1, hi=31) and `%m` (lo=1, hi=12):
one or two digits whose value lies in `lo..hi`. -/
def matchNumField (lo hi : Nat) (s : List Char) : Option Nat :=
  if allDigits s ∧ 1 ≤ s.length ∧ s.length ≤ 2 ∧ lo ≤ digitVal s ∧ digitVal s ≤ hi then
    some (digitVal s)
  else none

/-- CPython `_strptime` field for `%Y`: exactly four digits. -/
def matchYearField (s : List Char) : Option Nat :=
  if allDigits s ∧ s.length = 4 then some (digitVal s) else none

/-- Gregorian leap-year rule used by `datetime`. -/
def isLeapYear (y : Nat) : Bool :=
  y % 4 == 0 && (y % 100 != 0 || y % 400 == 0)

/-- Number of days of month `m` in year `y` (as validated by `datetime`). -/
def daysInMonth (y m : Nat) : Nat :=
  if m = 2 then (if isLeapYear y then 29 else 28)
  else if m = 4 ∨ m = 6 ∨ m = 9 ∨ m = 11 then 30
  else 31

/-- Field order of a date format string. -/
inductive DateOrder where
  | dmy
  | ymd
  | mdy
deriving DecidableEq, Repr

/-- One of the `strptime` format strings used by the code: a separator
character and the order of the day/month/year fields. -/
structure DateFormat where
  sep : Char
  ord : DateOrder
deriving DecidableEq, Repr

/-- Split a character list on a separator (model of `str.split(sep)` /
the literal separators of the `strptime` regex). -/
def splitOnChar (sep : Char) (s : List Char) : List (List Char) :=
  s.foldr
    (fun c acc =>
      match acc with
      | [] => [[c]]
      | g :: gs => if c = sep then [] :: g :: gs else (c :: g) :: gs)
    [[]]

/-- `datetime.strptime(s, fmt).date()` for one of the code's formats:
the string must be exactly three fields joined by the separator, the fields
must match the `%d`/`%m`/`%Y` regexes in the format's order, and the
resulting triple must be a valid calendar date. -/
def tryDateFormat (f : DateFormat) (s : List Char) : Option ParsedDate :=
  match splitOnChar f.sep s with
  | [a, b, c] =>
    let fields :=
      match f.ord with
      | .dmy => (a, b, c)
      | .ymd => (c, b, a)
      | .mdy => (b, a, c)
    match matchNumField 1 31 fields.1, matchNumField 1 12 fields.2.1,
        matchYearField fields.2.2 with
    | some d, some m, some y =>
      if 1 ≤ y ∧ d ≤ daysInMonth y m then some ⟨d, m, y⟩ else none
    | _, _, _ => none
  | _ => none

/-- The five formats of `upload_receipts` (receipts.py lines 207-213) and of
`process_pdf_content` (line 691): `%d/%m/%Y`, `%d-%m-%Y`, `%Y-%m-%d`,
`%m/%d/%Y`, `%m-%d-%Y`, in this order. -/
def uploadDateFormats : List DateFormat :=
  [⟨'/', .dmy⟩, ⟨'-', .dmy⟩, ⟨'-', .ymd⟩, ⟨'/', .mdy⟩, ⟨'-', .mdy⟩]

/-- The three formats of `process_pdf_batch` (receipts.py line 921):
`%d/%m/%Y`, `%Y-%m-%d`, `%d-%m-%Y`, in this order. -/
def batchDateFormats : List DateFormat :=
  [⟨'/', .dmy⟩, ⟨'-', .ymd⟩, ⟨'-', .dmy⟩]

/-- The date-parsing loop of the code: try each format in order, return the
first successful parse, `none` when every format fails. -/
def parseDate : List DateFormat → List Char → Option ParsedDate
  | [], _ => none
  | f :: fs, s =>
    match tryDateFormat f s with
    | some d => some d
    | none => parseDate fs s

/-- One entry of the extractor's `products` list.  Every field is read by
the code through `dict.get` (normalisation) or direct indexing
(persistence), so each is an `Option`. -/
structure ProductData where
  product_type : Option String := none
  product : Option String := none
  quantity : Option ℚ := none
  price : Option ℚ := none
  discount : Option ℚ := none
  discount2 : Option ℚ := none
deriving DecidableEq, Repr

/-- The extractor's `receipt` payload (`receipts.py` §6 of the spec).
`none` models an absent (or `null`) key. -/
structure ReceiptData where
  market : Option String := none
  branch : Option String := none
  invoice : Option String := none
  total : Option ℚ := none
  total_discount : Option ℚ := none
  total_paid : Option ℚ := none
  date : Option (List Char) := none
  products : Option (List ProductData) := none
deriving DecidableEq, Repr

/-- Python `round(x, 2)`: round to two decimal places.  Written with the
executable `Rat.floor`; `round2_eq_round` below identifies it with
`round (100 * q) / 100`. -/
def round2 (q : ℚ) : ℚ := (Rat.floor (100 * q + 1/2) : ℚ) / 100

/-- `_normalize_totals` (receipts.py lines 24-67).
`rawTotal`, `rawDiscount`, `rawPaid` are `receipt_data.get("total")`,
`.get("total_discount")`, `.get("total_paid")`; `products` is
`receipt_data.get("products") or []`.  The Python
`p.get("price") or 0` / `p.get("quantity") or 0` is `Option.getD 0`
(`None` and `0.0` are both falsy and both map to `0`). -/
def normalizeTotals (rawTotal rawDiscount rawPaid : Option ℚ)
    (products : List ProductData) : ℚ × ℚ × ℚ :=
  let pSum : ℚ := (products.map (fun p => p.price.getD 0 * p.quantity.getD 0)).sum
  let total : ℚ :=
    match rawTotal with
    | some t => t
    | none =>
      if pSum ≠ 0 ∧ 0 < pSum then pSum
      else
        match rawPaid with
        | some p => p
        | none => 0
  let disc : ℚ :=
    match rawDiscount with
    | some d => d
    | none =>
      match rawPaid with
      | some p => max (total - p) 0
      | none => 0
  let paid : ℚ :=
    match rawPaid with
    | some p => p
    | none => max (total - disc) 0
  (round2 total, round2 disc, round2 paid)

/-- `Rat.floor` agrees with the `FloorRing` floor on `ℚ`. -/
theorem ratFloor_eq_floor (q : ℚ) : Rat.floor q = ⌊q⌋ := by
  rw [Rat.floor_def' q]
  exact Rat.floor_def.symm

/-- `round2` is rounding to the nearest multiple of `1/100` (half up). -/
theorem round2_eq_round (q : ℚ) : round2 q = (round (100 * q) : ℤ) / 100 := by
  rw [round2, ratFloor_eq_floor, round_eq]

/-- Spec §8: `normalize({total: 10.0, total_discount: 3.0})` (no paid)
returns `(10.0, 3.0, 7.0)`. -/
theorem normalizeTotals_spec_example :
    normalizeTotals (some 10) (some 3) none [] = (10, 3, 7) := by
  simp only [normalizeTotals, round2_eq_round, List.map_nil, List.sum_nil]
  norm_num [round_eq]

/-- Spec §8: `normalize({})` (all absent, no products) returns
`(0.0, 0.0, 0.0)`. -/
theorem normalizeTotals_empty_example :
    normalizeTotals none none none [] = (0, 0, 0) := by
  simp only [normalizeTotals, round2_eq_round, List.map_nil, List.sum_nil]
  norm_num [round_eq]

/-- A persisted row of the `receipts` table (`models.py` lines 92-109). -/
structure ReceiptRow where
  id : Nat
  market : String
  branch : String
  invoice : Option String
  date : ParsedDate
  total : ℚ
  total_discount : ℚ
  total_paid : ℚ
  filename : Option String
  user_id : Nat
deriving DecidableEq, Repr

/-- A persisted row of the `receipt_products` table (`models.py` 112-124). -/
structure ProductRow where
  product_type : String
  product : String
  quantity : ℚ
  price : ℚ
  discount : ℚ
  discount2 : ℚ
  receipt_id : Nat
deriving DecidableEq, Repr

/-- The committed database state: receipt rows, product rows, and the
autoincrement counter for receipt ids. -/
structure Store where
  rows : List ReceiptRow
  products : List ProductRow
  nextId : Nat
deriving DecidableEq, Repr

/-- `ReceiptUploadResponse` (`schemas.py`): per-file outcome object. -/
structure UploadResponse where
  success : Bool
  message : String
  receipt_id : Option Nat := none
deriving DecidableEq, Repr

/-- One element of the extractor's `results` list. -/
structure ApiResult where
  success : Bool
  error_message : Option String := none
  receipt : Option ReceiptData := none
deriving DecidableEq, Repr

/-- Observable behaviour of the one `POST` to the extraction endpoint:
network error (`httpx.RequestError`), non-200 status, 200 with
unparseable JSON, or 200 with a parsed `results` list (a missing
`results` key is the same as an empty list to the code's falsiness
check). -/
inductive ExtractorResponse where
  | networkError (err : String)
  | status (code : Nat)
  | badJson
  | ok (results : List ApiResult)
deriving DecidableEq, Repr

/-- `HTTPException` raised by a route. -/
structure HttpError where
  code : Nat
  detail : String
deriving DecidableEq, Repr

/-- The `.pdf` check of `upload_receipts` line 80:
`file.filename.lower().endswith('.pdf')` (ASCII lowering; the filenames in
scope are ASCII). -/
def isPdfName (fname : String) : Bool :=
  ['.', 'p', 'd', 'f'].isSuffixOf (fname.data.map Char.toLower)

/-- The `ReceiptProduct` rows created for one receipt (receipts.py lines
258-271 / 980-993).  `product_type`, `product`, `quantity`, `price` are
read by direct indexing — a missing one raises `KeyError`, modelled as
`none`; `discount`/`discount2` are read as `get(...) or 0`. -/
def mkProductRows (rid : Nat) : List ProductData → Option (List ProductRow)
  | [] => some []
  | p :: ps =>
    match p.product_type, p.product, p.quantity, p.price, mkProductRows rid ps with
    | some pt, some pn, some q, some pr, some rest =>
      some (⟨pt, pn, q, pr, p.discount.getD 0, p.discount2.getD 0, rid⟩ :: rest)
    | _, _, _, _, _ => none

/-- The required-key validation of `upload_receipts` lines 189-193, in the
source's key order; returns the missing keys. -/
def requiredMissingUpload (rd : ReceiptData) : List String :=
  (if rd.market.isSome then [] else ["market"]) ++
  (if rd.branch.isSome then [] else ["branch"]) ++
  (if rd.total.isSome then [] else ["total"]) ++
  (if rd.total_discount.isSome then [] else ["total_discount"]) ++
  (if rd.total_paid.isSome then [] else ["total_paid"]) ++
  (if rd.date.isSome then [] else ["date"]) ++
  (if rd.products.isSome then [] else ["products"])

/-- The body of `upload_receipts`'s per-result loop (lines 173-293) for one
extraction result: decide whether this candidate's unit of work commits
(`some (receipt row, product rows)`) and the outcome appended to `results`.
`rid` is the id `db.flush()` would assign; `w` is true when the
flush/commit for this candidate raises (the generic `except` at line 286
rolls back exactly this candidate's pending writes). -/
def processOneUpload (uid rid : Nat) (fname : String) (r : ApiResult)
    (w : Bool) : Option (ReceiptRow × List ProductRow) × UploadResponse :=
  if r.success = false then
    (none, ⟨false, "Extraction failed for " ++ fname ++ ": " ++
      r.error_message.getD "Unknown error", none⟩)
  else
    let rd := r.receipt.getD {}
    let missing := requiredMissingUpload rd
    if missing ≠ [] then
      (none, ⟨false, "Incomplete receipt data extracted from " ++ fname ++
        ". Missing: " ++ String.intercalate ", " missing, none⟩)
    else
      let dstr := rd.date.getD []
      match parseDate uploadDateFormats dstr with
      | none =>
        (none, ⟨false, "Invalid date format in extracted data for " ++ fname ++
          ": " ++ String.mk dstr ++
          ". Supported formats: DD/MM/YYYY, DD-MM-YYYY, YYYY-MM-DD", none⟩)
      | some d =>
        let n := normalizeTotals rd.total rd.total_discount rd.total_paid
          (rd.products.getD [])
        match mkProductRows rid (rd.products.getD []) with
        | none =>
          (none, ⟨false, "Failed to process receipt " ++ fname ++ ": KeyError",
            none⟩)
        | some prods =>
          if w then
            (none, ⟨false, "Failed to process receipt " ++ fname ++
              ": database error", none⟩)
          else
            (some (⟨rid, rd.market.getD "", rd.branch.getD "", rd.invoice, d,
              n.1, n.2.1, n.2.2, none, uid⟩, prods),
             ⟨true, "Receipt " ++ fname ++ " uploaded and processed successfully",
               some rid⟩)

/-- `for i, result in enumerate(api_results)` (line 168): one committed (or
rolled-back) unit of work and one appended outcome per extraction result.
The display filename falls back to `file_{i+1}` when `i` is beyond the
input list (line 169-170). -/
def uploadLoopAux (uid : Nat) (fileNames : List String) (wfail : Nat → Bool) :
    Nat → Store → List ApiResult → Store × List UploadResponse
  | _, st, [] => (st, [])
  | i, st, r :: rest =>
    let fname := (fileNames.get? i).getD ("file_" ++ toString (i + 1))
    let step := processOneUpload uid st.nextId fname r (wfail i)
    let st' : Store :=
      match step.1 with
      | none => st
      | some (row, prods) =>
        ⟨st.rows ++ [row], st.products ++ prods, st.nextId + 1⟩
    let rec' := uploadLoopAux uid fileNames wfail (i + 1) st' rest
    (rec'.1, step.2 :: rec'.2)

/-- `upload_receipts` (receipts.py lines 70-297).  File reads are assumed to
succeed (see header); file bytes are opaque, so a file is its filename. -/
def uploadReceipts (st : Store) (uid : Nat) (files : List String)
    (resp : ExtractorResponse) (wfail : Nat → Bool) :
    Except HttpError (Store × List UploadResponse) :=
  match files.find? (fun f => !(isPdfName f)) with
  | some f =>
    .error ⟨400, "File " ++ f ++ " is not a PDF. Only PDF files are allowed."⟩
  | none =>
    match resp with
    | .status code =>
      .ok (st, files.map (fun fn =>
        ⟨false, "Failed to extract data from " ++ fn ++ ": API returned " ++
          toString code, none⟩))
    | .networkError e =>
      .ok (st, files.map (fun fn =>
        ⟨false, "Failed to connect to PDF extraction service for " ++ fn ++
          ": " ++ e, none⟩))
    | .badJson =>
      .ok (st, files.map (fun fn =>
        ⟨false, "Invalid response format from extraction service for " ++ fn,
          none⟩))
    | .ok results =>
      if results = [] then
        .ok (st, files.map (fun fn =>
          ⟨false, "No data could be extracted from " ++ fn, none⟩))
      else
        .ok (uploadLoopAux uid files wfail 0 st results)

/-- An `ExtractionCandidate` of the Outlook sync path: the dedup
`filename` (attachment name possibly suffixed with the email timestamp)
and the original display name.  Bytes are opaque. -/
structure Candidate where
  filename : String
  original_filename : Option String := none
deriving DecidableEq, Repr

/-- The `already processed` key set (receipts.py lines 800-806; same query
as outlook.py lines 474-481): filenames of this user's receipts whose
`filename` column is non-NULL. -/
def processedFilenames (uid : Nat) (st : Store) : List String :=
  st.rows.filterMap (fun r => if r.user_id = uid then r.filename else none)

/-- The duplicate filter of `process_pdf_batch` (lines 811-826): route a
candidate to the skip side iff its dedup filename is already processed,
preserving input order on both sides. -/
def dedupPartition (processed : List String) : List Candidate → List Candidate × List Candidate
  | [] => ([], [])
  | c :: cs =>
    let rest := dedupPartition processed cs
    if c.filename ∈ processed then (c :: rest.1, rest.2)
    else (rest.1, c :: rest.2)

/-- The skip outcome built at lines 820-824. -/
def dupResponse (c : Candidate) : UploadResponse :=
  ⟨false, "Receipt " ++ c.filename ++ " has already been processed", none⟩


/-- The per-pair loop of `process_pdf_batch` (lines 890-1002) over
`zip(new_pdfs, api_results)`.  All writes go to the one `batch_db`
transaction, committed only after the loop (line 1005); any exception —
`KeyError` on a required payload key (`date`/`market`/`branch`/`invoice`
or a product field, which are read by direct indexing), or a database
error at `flush` (the oracle `wfail i`) — aborts the whole loop, which the
caller turns into a full rollback.  On success it returns the pending
receipt rows, pending product rows, and the per-pair outcomes. -/
def batchLoop (uid : Nat) (wfail : Nat → Bool) :
    Nat → Nat → List (Candidate × ApiResult) →
    Except String (List ReceiptRow × List ProductRow × List UploadResponse)
  | _, _, [] => .ok ([], [], [])
  | i, nid, (c, r) :: rest =>
    if r.success = false then
      (batchLoop uid wfail (i + 1) nid rest).map (fun acc =>
        (acc.1, acc.2.1,
          ⟨false, "Extraction failed for " ++ c.filename ++ ": " ++
            r.error_message.getD "Unknown error", none⟩ :: acc.2.2))
    else
      match r.receipt with
      | none =>
        (batchLoop uid wfail (i + 1) nid rest).map (fun acc =>
          (acc.1, acc.2.1,
            ⟨false, "No receipt data found in " ++ c.filename, none⟩ :: acc.2.2))
      | some rd =>
        if rd = ({} : ReceiptData) then
          (batchLoop uid wfail (i + 1) nid rest).map (fun acc =>
            (acc.1, acc.2.1,
              ⟨false, "No receipt data found in " ++ c.filename, none⟩ :: acc.2.2))
        else
          match rd.date with
          | none => .error "KeyError: date"
          | some dstr =>
            match parseDate batchDateFormats dstr with
            | none =>
              (batchLoop uid wfail (i + 1) nid rest).map (fun acc =>
                (acc.1, acc.2.1,
                  ⟨false, "Invalid date format in " ++ c.filename ++ ": " ++
                    String.mk dstr, none⟩ :: acc.2.2))
            | some d =>
              let n := normalizeTotals rd.total rd.total_discount rd.total_paid
                (rd.products.getD [])
              match rd.market, rd.branch, rd.invoice, rd.products with
              | some mk, some br, some inv, some ps =>
                if wfail i then .error "database error"
                else
                  match mkProductRows nid ps with
                  | none => .error "KeyError: product field"
                  | some prods =>
                    (batchLoop uid wfail (i + 1) (nid + 1) rest).map (fun acc =>
                      (⟨nid, mk, br, some inv, d, n.1, n.2.1, n.2.2,
                          some c.filename, uid⟩ :: acc.1,
                        prods ++ acc.2.1,
                        ⟨true, "Receipt " ++ c.filename ++
                          " uploaded and processed successfully",
                          some nid⟩ :: acc.2.2))
              | _, _, _, _ => .error "KeyError: receipt field"

/-- `process_pdf_batch` (receipts.py lines 781-1035): safety duplicate
check against already-persisted filenames, one extraction call for the
remaining candidates, a single batch-wide transaction for all writes
(committed at line 1005, fully rolled back by the handlers at lines
1012-1033), and `skipped_results` prepended to the per-pair outcomes. -/
def processPdfBatch (st : Store) (uid : Nat) (batch : List Candidate)
    (resp : ExtractorResponse) (wfail : Nat → Bool) :
    Store × List UploadResponse :=
  let processed := processedFilenames uid st
  let parts := dedupPartition processed batch
  let skippedResults := parts.1.map dupResponse
  if parts.2 = [] then (st, skippedResults)
  else
    match resp with
    | .status code =>
      (st, skippedResults ++ parts.2.map (fun c =>
        ⟨false, "Failed to extract data from " ++ c.filename ++
          ": API returned " ++ toString code, none⟩))
    | .networkError e =>
      (st, skippedResults ++ parts.2.map (fun c =>
        ⟨false, "Failed to connect to PDF extraction service for " ++
          c.filename ++ ": " ++ e, none⟩))
    | .badJson =>
      (st, skippedResults ++ parts.2.map (fun c =>
        ⟨false, "Failed to process receipt " ++ c.filename ++
          ": JSONDecodeError", none⟩))
    | .ok results =>
      if results = [] then
        (st, skippedResults ++ parts.2.map (fun c =>
          ⟨false, "No data could be extracted from " ++ c.filename, none⟩))
      else
        match batchLoop uid wfail 0 st.nextId (parts.2.zip results) with
        | .ok acc =>
          (⟨st.rows ++ acc.1, st.products ++ acc.2.1,
              st.nextId + acc.1.length⟩,
            skippedResults ++ acc.2.2)
        | .error e =>
          (st, skippedResults ++ parts.2.map (fun c =>
            ⟨false, "Failed to process receipt " ++ c.filename ++ ": " ++ e,
              none⟩))

/-- `get_receipt` (lines 568-585): the user-scoped lookup
`Receipt.id == receipt_id AND Receipt.user_id == current_user.id`;
`none` means the route raises 404. -/
def getReceipt (uid rid : Nat) (st : Store) : Option ReceiptRow :=
  st.rows.find? (fun r => r.id == rid && r.user_id == uid)

/-- `delete_receipt` (lines 588-611): 404 when the user-scoped lookup finds
nothing (store untouched); otherwise delete the products with this
`receipt_id` and the found receipt row. -/
def deleteReceipt (uid rid : Nat) (st : Store) :
    Store × Except HttpError String :=
  match getReceipt uid rid st with
  | none => (st, .error ⟨404, "Receipt not found"⟩)
  | some _ =>
    (⟨st.rows.eraseP (fun r => r.id == rid && r.user_id == uid),
        st.products.filter (fun p => p.receipt_id != rid),
        st.nextId⟩,
      .ok "Receipt deleted successfully")

/-- The rows served by `get_receipts` (lines 300-389): the base query is
user-scoped (line 324) and then paginated.  The optional market/branch/
date/amount filters and the sort only refine or reorder this user-scoped
row set and are not modelled. -/
def getReceiptsPage (uid page perPage : Nat) (st : Store) : List ReceiptRow :=
  let pp := min (max 1 perPage) 10000
  let pg := max 1 page
  ((st.rows.filter (fun r => r.user_id == uid)).drop ((pg - 1) * pp)).take pp

/-- A value that is a whole number of cents is a fixed point of `round2`. -/
theorem round2_int_div_100 (n : ℤ) : round2 ((n : ℚ) / 100) = (n : ℚ) / 100 := by
  rw [round2_eq_round, mul_comm, div_mul_cancel₀ _ (by norm_num : (100:ℚ) ≠ 0),
    round_intCast]

/-- Integers are fixed points of `round2`. -/
theorem round2_intCast (n : ℤ) : round2 ((n : ℚ)) = (n : ℚ) := by
  have h : ((n : ℚ)) = ((100 * n : ℤ) : ℚ) / 100 := by
    push_cast
    rw [mul_comm, mul_div_assoc]
    norm_num
  rw [h, round2_int_div_100]

/-- `round2` preserves non-negativity. -/
theorem round2_nonneg {q : ℚ} (h : 0 ≤ q) : 0 ≤ round2 q := by
  rw [round2_eq_round, round_eq]
  refine div_nonneg ?_ (by norm_num)
  exact_mod_cast Int.floor_nonneg.mpr (by linarith)

/-- C3, counterexample.  The claim asserts that whenever exactly two of
{total, total_discount, total_paid} are supplied, the returned triple
satisfies `total - discount == paid`.  With `total` absent and
`total_discount = 3`, `total_paid = 10` supplied (no products), the code
derives `total := total_paid = 10` (receipts.py lines 49-55) and keeps
`discount = 3`, so the triple is `(10, 3, 10)` and `10 - 3 ≠ 10`. -/
theorem c3_total_minus_discount_counterexample :
    normalizeTotals none (some 3) (some 10) [] = (10, 3, 10) ∧
      ¬ ((normalizeTotals none (some 3) (some 10) []).1 -
          (normalizeTotals none (some 3) (some 10) []).2.1 =
          (normalizeTotals none (some 3) (some 10) []).2.2) := by
  have h : normalizeTotals none (some 3) (some 10) [] = (10, 3, 10) := by
    simp only [normalizeTotals, List.map_nil, List.sum_nil]
    norm_num
    refine ⟨?_, ?_, ?_⟩ <;>
      · rw [round2_eq_round]
        norm_num [round_eq]
  refine ⟨h, ?_⟩
  rw [h]
  norm_num

/-- Evaluation of `_normalize_totals` when `total` and `total_discount` are
supplied and `total_paid` is absent. -/
theorem normalizeTotals_total_disc_given (t d : ℚ) (ps : List ProductData) :
    normalizeTotals (some t) (some d) none ps =
      (round2 t, round2 d, round2 (max (t - d) 0)) := by
  simp only [normalizeTotals]

/-- Evaluation of `_normalize_totals` when `total` and `total_paid` are
supplied and `total_discount` is absent. -/
theorem normalizeTotals_total_paid_given (t p : ℚ) (ps : List ProductData) :
    normalizeTotals (some t) none (some p) ps =
      (round2 t, round2 (max (t - p) 0), round2 p) := by
  simp only [normalizeTotals]

/-- Difference of two cent amounts is a cent amount. -/
theorem cents_sub (a b : ℤ) : (a : ℚ) / 100 - (b : ℚ) / 100 = ((a - b : ℤ) : ℚ) / 100 := by
  push_cast
  ring

/-- C3, amended.  The reconciliation identity `total - discount == paid`
holds in the two cases in which `total` is among the supplied values: when
`total` and `total_discount` are supplied as non-negative cent amounts with
`discount ≤ total` (the paid side is derived), and when `total` and
`total_paid` are supplied as non-negative cent amounts with
`paid ≤ total` (the discount is derived); in both cases all three outputs
are non-negative.  When `total` is the absent one the identity can fail
(see the counterexample). -/
theorem c3_amended_two_of_three (tc xc : ℤ) (products : List ProductData)
    (h0 : 0 ≤ xc) (h1 : xc ≤ tc) :
    (normalizeTotals (some ((tc:ℚ)/100)) (some ((xc:ℚ)/100)) none products =
        ((tc:ℚ)/100, (xc:ℚ)/100, (tc:ℚ)/100 - (xc:ℚ)/100) ∧
      0 ≤ (tc:ℚ)/100 ∧ 0 ≤ (xc:ℚ)/100 ∧ 0 ≤ (tc:ℚ)/100 - (xc:ℚ)/100) ∧
    (normalizeTotals (some ((tc:ℚ)/100)) none (some ((xc:ℚ)/100)) products =
        ((tc:ℚ)/100, (tc:ℚ)/100 - (xc:ℚ)/100, (xc:ℚ)/100) ∧
      0 ≤ (tc:ℚ)/100 ∧ 0 ≤ (xc:ℚ)/100 ∧ 0 ≤ (tc:ℚ)/100 - (xc:ℚ)/100) := by
  have htc : (0:ℤ) ≤ tc := le_trans h0 h1
  have hx : (0:ℚ) ≤ (xc:ℚ)/100 := by
    apply div_nonneg _ (by norm_num)
    exact_mod_cast h0
  have ht : (0:ℚ) ≤ (tc:ℚ)/100 := by
    apply div_nonneg _ (by norm_num)
    exact_mod_cast htc
  have hsub : (0:ℚ) ≤ (tc:ℚ)/100 - (xc:ℚ)/100 := by
    rw [cents_sub]
    apply div_nonneg _ (by norm_num)
    exact_mod_cast sub_nonneg.mpr h1
  have hmax : max ((tc:ℚ)/100 - (xc:ℚ)/100) 0 = (tc:ℚ)/100 - (xc:ℚ)/100 :=
    max_eq_left hsub
  have hround : round2 ((tc:ℚ)/100 - (xc:ℚ)/100) = (tc:ℚ)/100 - (xc:ℚ)/100 := by
    rw [cents_sub, round2_int_div_100]
  constructor
  · refine ⟨?_, ht, hx, hsub⟩
    rw [normalizeTotals_total_disc_given, hmax, hround,
      round2_int_div_100, round2_int_div_100]
  · refine ⟨?_, ht, hx, hsub⟩
    rw [normalizeTotals_total_paid_given, hmax, hround,
      round2_int_div_100, round2_int_div_100]

/-- Witness for C3 (amended): total 10.00, discount 3.00 supplied, paid
derived as 7.00; and total 10.00, paid 3.00 supplied, discount derived
as 7.00. -/
theorem c3_amended_two_of_three_witness :
    normalizeTotals (some ((1000:ℤ)/100 : ℚ)) (some ((300:ℤ)/100 : ℚ)) none [] =
      (((1000:ℤ):ℚ)/100, ((300:ℤ):ℚ)/100, ((1000:ℤ):ℚ)/100 - ((300:ℤ):ℚ)/100) ∧
    normalizeTotals (some ((1000:ℤ)/100 : ℚ)) none (some ((300:ℤ)/100 : ℚ)) [] =
      (((1000:ℤ):ℚ)/100, ((1000:ℤ):ℚ)/100 - ((300:ℤ):ℚ)/100, ((300:ℤ):ℚ)/100) := by
  have h := c3_amended_two_of_three 1000 300 [] (by norm_num) (by norm_num)
  exact ⟨by exact_mod_cast h.1.1, by exact_mod_cast h.2.1⟩

/-- C6, counterexample.  The claim asserts `normalize` never returns a
negative discount for any well-typed numeric-or-null input.  A supplied
`total_discount` is returned as-is (receipts.py line 47, 57), so the input
`{total_discount: -3}` yields discount `-3 < 0`. -/
theorem c6_negative_discount_counterexample :
    (normalizeTotals none (some (-3)) none []).2.1 = -3 ∧
      ¬ (0 ≤ (normalizeTotals none (some (-3)) none []).2.1) := by
  have h : (normalizeTotals none (some (-3)) none []).2.1 = -3 := by
    simp only [normalizeTotals, List.map_nil, List.sum_nil]
    rw [round2_eq_round]
    norm_num [round_eq]
  exact ⟨h, by rw [h]; norm_num⟩

/-- C6, amended.  `_normalize_totals` is a total function (the model never
fails, matching "never raises for well-typed numeric-or-null inputs"), and
the returned discount is non-negative whenever the supplied
`total_discount` is non-negative — in particular always when
`total_discount` is absent, since the derived value is `max(·, 0)` or
`0.0`.  A supplied negative `total_discount` is the one exception (see the
counterexample). -/
theorem c6_amended_nonnegative_discount (t p : Option ℚ) (d0 : ℚ)
    (products : List ProductData) :
    (0 ≤ d0 → 0 ≤ (normalizeTotals t (some d0) p products).2.1) ∧
    0 ≤ (normalizeTotals t none p products).2.1 := by
  constructor
  · intro h
    have : (normalizeTotals t (some d0) p products).2.1 = round2 d0 := by
      simp only [normalizeTotals]
    rw [this]
    exact round2_nonneg h
  · cases p with
    | none =>
      have : (normalizeTotals t none none products).2.1 = round2 0 := by
        simp only [normalizeTotals]
      rw [this]
      exact round2_nonneg le_rfl
    | some p0 =>
      cases t with
      | none =>
        have : 0 ≤ (normalizeTotals none none (some p0) products).2.1 := by
          simp only [normalizeTotals]
          exact round2_nonneg (le_max_right _ _)
        exact this
      | some t0 =>
        have : (normalizeTotals (some t0) none (some p0) products).2.1 =
            round2 (max (t0 - p0) 0) := by
          simp only [normalizeTotals]
        rw [this]
        exact round2_nonneg (le_max_right _ _)

/-- Witness for C6 (amended) at `total_discount = 3` (supplied,
non-negative) and at `total_discount` absent with `total_paid = 7`. -/
theorem c6_amended_nonnegative_discount_witness :
    0 ≤ (normalizeTotals none (some 3) none []).2.1 ∧
    0 ≤ (normalizeTotals none none (some 7) []).2.1 :=
  ⟨(c6_amended_nonnegative_discount none none 3 []).1 (by norm_num),
   (c6_amended_nonnegative_discount none (some 7) 3 []).2⟩

/-- The format loop returns the first format that parses. -/
theorem parseDate_eq_findSome (fmts : List DateFormat) (s : List Char) :
    parseDate fmts s = fmts.findSome? (fun f => tryDateFormat f s) := by
  induction fmts with
  | nil => rfl
  | cons f fs ih =>
    simp only [parseDate, List.findSome?]
    cases tryDateFormat f s <;> simp [ih]

/-- The format loop fails exactly when every format fails. -/
theorem parseDate_eq_none_iff (fmts : List DateFormat) (s : List Char) :
    parseDate fmts s = none ↔ ∀ f ∈ fmts, tryDateFormat f s = none := by
  induction fmts with
  | nil => simp [parseDate]
  | cons f fs ih =>
    simp only [parseDate]
    cases h : tryDateFormat f s with
    | some d => simp [h]
    | none => simpa [h] using ih

/-- C5, counterexample.  The claim asserts every ingestion path's date
parser tries the same five formats (including `%m/%d/%Y`).  The
interactive-upload parser (five formats, receipts.py lines 207-213)
accepts "04/25/2024" via `%m/%d/%Y`, but the Outlook batch parser
(`process_pdf_batch` line 921) tries only `%d/%m/%Y`, `%Y-%m-%d`,
`%d-%m-%Y` and rejects the same string. -/
theorem c5_format_divergence_counterexample :
    parseDate uploadDateFormats "04/25/2024".toList = some ⟨25, 4, 2024⟩ ∧
    parseDate batchDateFormats "04/25/2024".toList = none := by
  decide

/-- C5, amended.  Each parser tries its own fixed format list in priority
order and returns the first success, failing only when every format fails:
the interactive upload path uses the five formats
DD/MM/YYYY, DD-MM-YYYY, YYYY-MM-DD, MM/DD/YYYY, MM-DD-YYYY, while the
Outlook batch path uses only DD/MM/YYYY, YYYY-MM-DD, DD-MM-YYYY.  On both
parsers "17/09/2024" parses as day 17, month 9, year 2024 (DD/MM
priority), "2024-09-17" parses via the ISO format, and "31/31/2024"
fails. -/
theorem c5_amended_date_formats :
    (∀ s, parseDate uploadDateFormats s =
      uploadDateFormats.findSome? (fun f => tryDateFormat f s)) ∧
    (∀ s, parseDate batchDateFormats s =
      batchDateFormats.findSome? (fun f => tryDateFormat f s)) ∧
    (∀ s, parseDate uploadDateFormats s = none ↔
      ∀ f ∈ uploadDateFormats, tryDateFormat f s = none) ∧
    parseDate uploadDateFormats "17/09/2024".toList = some ⟨17, 9, 2024⟩ ∧
    parseDate uploadDateFormats "2024-09-17".toList = some ⟨17, 9, 2024⟩ ∧
    parseDate uploadDateFormats "31/31/2024".toList = none ∧
    parseDate batchDateFormats "17/09/2024".toList = some ⟨17, 9, 2024⟩ ∧
    parseDate batchDateFormats "2024-09-17".toList = some ⟨17, 9, 2024⟩ ∧
    parseDate batchDateFormats "31/31/2024".toList = none :=
  ⟨fun s => parseDate_eq_findSome uploadDateFormats s,
   fun s => parseDate_eq_findSome batchDateFormats s,
   fun s => parseDate_eq_none_iff uploadDateFormats s,
   by decide, by decide, by decide, by decide, by decide, by decide⟩

/-- The duplicate filter routes, preserving input order, a candidate to the
skip side iff its dedup filename is in `already_processed` and to the keep
side iff it is not. -/
theorem dedupPartition_eq_filter (processed : List String)
    (batch : List Candidate) :
    dedupPartition processed batch =
      (batch.filter (fun c => decide (c.filename ∈ processed)),
       batch.filter (fun c => decide (c.filename ∉ processed))) := by
  induction batch with
  | nil => rfl
  | cons c cs ih =>
    simp only [dedupPartition, ih, List.filter]
    by_cases h : c.filename ∈ processed <;> simp [h]

/-- C7.  The duplicate filter of the batch pipeline: skip iff the dedup
filename is already processed, keep otherwise, preserving input order in
both partitions; and the spec's concrete example with
`already_processed = {"a.pdf_20240101_000000"}`. -/
theorem c7_duplicate_partition :
    (∀ (processed : List String) (batch : List Candidate),
      dedupPartition processed batch =
        (batch.filter (fun c => decide (c.filename ∈ processed)),
         batch.filter (fun c => decide (c.filename ∉ processed)))) ∧
    dedupPartition ["a.pdf_20240101_000000"]
        [⟨"a.pdf_20240101_000000", none⟩, ⟨"b.pdf", none⟩] =
      ([⟨"a.pdf_20240101_000000", none⟩], [⟨"b.pdf", none⟩]) :=
  ⟨dedupPartition_eq_filter, by decide⟩

/-- When every candidate is already processed, the filter skips them all. -/
theorem dedupPartition_all_mem (processed : List String)
    (batch : List Candidate)
    (h : ∀ c ∈ batch, c.filename ∈ processed) :
    dedupPartition processed batch = (batch, []) := by
  induction batch with
  | nil => rfl
  | cons c cs ih =>
    have hc := h c (List.mem_cons_self c cs)
    have hrest := ih (fun x hx => h x (List.mem_cons_of_mem _ hx))
    simp only [dedupPartition, hrest, if_pos hc]

/-- C4.  Re-running the batch ingestion on a candidate set whose dedup
filenames are all already persisted for this user yields only
already-processed (duplicate-skip) outcomes, creates no Receipt rows, and
returns the store unchanged — regardless of the extractor's response and
of any write failures, because the pipeline returns before calling the
extractor (receipts.py lines 828-830). -/
theorem c4_idempotent_reingestion (st : Store) (uid : Nat)
    (batch : List Candidate) (resp : ExtractorResponse) (wfail : Nat → Bool)
    (h : ∀ c ∈ batch, c.filename ∈ processedFilenames uid st) :
    processPdfBatch st uid batch resp wfail = (st, batch.map dupResponse) := by
  simp only [processPdfBatch, dedupPartition_all_mem _ _ h]
  simp

/-- Witness for C4: a store already holding the batch-ingested receipt
`a.pdf_20240101_000000` for user 1; re-ingesting the same candidate is a
pure duplicate-skip. -/
theorem c4_idempotent_reingestion_witness :
    processPdfBatch
        ⟨[⟨1, "M", "B", none, ⟨17, 9, 2024⟩, 10, 0, 10,
            some "a.pdf_20240101_000000", 1⟩], [], 2⟩
        1 [⟨"a.pdf_20240101_000000", none⟩] (.ok []) (fun _ => false) =
      (⟨[⟨1, "M", "B", none, ⟨17, 9, 2024⟩, 10, 0, 10,
            some "a.pdf_20240101_000000", 1⟩], [], 2⟩,
        [dupResponse ⟨"a.pdf_20240101_000000", none⟩]) :=
  c4_idempotent_reingestion _ 1 _ (.ok []) (fun _ => false) (by decide)

/-- Destructor for `Except.map` returning `.ok`. -/
theorem except_map_ok {ε α β : Type} (f : α → β) (e : Except ε α) (b : β)
    (h : e.map f = .ok b) : ∃ a, e = .ok a ∧ f a = b := by
  cases e with
  | error e => simp [Except.map] at h
  | ok a =>
    refine ⟨a, rfl, ?_⟩
    simpa [Except.map] using h

/-- The upload loop appends exactly one outcome per extraction result. -/
theorem uploadLoopAux_length (uid : Nat) (files : List String)
    (wfail : Nat → Bool) :
    ∀ (results : List ApiResult) (i : Nat) (st : Store),
      (uploadLoopAux uid files wfail i st results).2.length = results.length := by
  intro results
  induction results with
  | nil => intro i st; rfl
  | cons r rest ih =>
    intro i st
    simp only [uploadLoopAux, List.length_cons, ih]

/-- A batch loop that does not raise produces one outcome per zipped pair. -/
theorem batchLoop_ok_length (uid : Nat) (wfail : Nat → Bool) :
    ∀ (pairs : List (Candidate × ApiResult)) (i nid : Nat)
      (acc : List ReceiptRow × List ProductRow × List UploadResponse),
      batchLoop uid wfail i nid pairs = .ok acc →
      acc.2.2.length = pairs.length := by
  intro pairs
  induction pairs with
  | nil =>
    intro i nid acc h
    simp only [batchLoop] at h
    cases h
    rfl
  | cons pr rest ih =>
    intro i nid acc h
    obtain ⟨c, r⟩ := pr
    simp only [batchLoop] at h
    iterate 8 (all_goals (try split at h))
    all_goals try exact absurd h (by simp)
    all_goals
      obtain ⟨acc', hrec, hacc⟩ := except_map_ok _ _ _ h
      subst hacc
      simp [ih _ _ _ hrec]

/-- A fully valid extraction payload used for concrete instances. -/
def sampleReceiptData : ReceiptData :=
  { market := some "Market", branch := some "Branch", invoice := some "INV-1",
    total := some 10, total_discount := some 0, total_paid := some 10,
    date := some "17/09/2024".toList, products := some [] }

/-- A successful extraction result carrying `sampleReceiptData`. -/
def sampleOkResult : ApiResult :=
  { success := true, error_message := none, receipt := some sampleReceiptData }

/-- The empty database. -/
def emptyStore : Store := ⟨[], [], 0⟩

/-- When every filename passes the `.pdf` check, the guard loop finds no
offender. -/
theorem find?_nonPdf_eq_none {files : List String}
    (h : ∀ f ∈ files, isPdfName f = true) :
    files.find? (fun f => !(isPdfName f)) = none := by
  apply List.find?_eq_none.mpr
  intro x hx
  simp [h x hx]

/-- C2, counterexample.  The claim demands one outcome per input candidate
with the unmatched tail marked failed.  Submitting two PDF files while the
extractor returns a single result makes `upload_receipts` iterate over
`enumerate(api_results)` (receipts.py line 168): it returns exactly one
outcome, and `b.pdf` receives no outcome at all. -/
theorem c2_missing_tail_counterexample :
    (uploadReceipts emptyStore 1 ["a.pdf", "b.pdf"] (.ok [sampleOkResult])
        (fun _ => false)).toOption.map (fun p => p.2.length) = some 1 ∧
      (["a.pdf", "b.pdf"] : List String).length = 2 := by
  constructor
  · decide
  · rfl

/-- C2, amended.  Alignment is by position, and a length mismatch is
silently truncated rather than failed: the interactive upload path emits
exactly one outcome per extraction result (`enumerate(api_results)`, with
an unmatched result labelled `file_{i+1}`), so an unmatched tail of input
candidates receives no outcome; the batch path emits the duplicate-skip
outcomes plus one outcome per `zip(new_pdfs, api_results)` pair, i.e.
`min` of the two lengths, when the batch transaction does not abort. -/
theorem c2_amended_alignment :
    (∀ (st : Store) (uid : Nat) (files : List String)
        (results : List ApiResult) (wfail : Nat → Bool),
      (∀ f ∈ files, isPdfName f = true) → results ≠ [] →
      ∃ st2 outs,
        uploadReceipts st uid files (.ok results) wfail = .ok (st2, outs) ∧
          outs.length = results.length) ∧
    (∀ (st : Store) (uid : Nat) (batch : List Candidate)
        (results : List ApiResult) (wfail : Nat → Bool)
        (acc : List ReceiptRow × List ProductRow × List UploadResponse),
      batchLoop uid wfail 0 st.nextId
          ((dedupPartition (processedFilenames uid st) batch).2.zip results) =
        .ok acc →
      results ≠ [] →
      (processPdfBatch st uid batch (.ok results) wfail).2.length =
        (dedupPartition (processedFilenames uid st) batch).1.length +
          min (dedupPartition (processedFilenames uid st) batch).2.length
            results.length) := by
  constructor
  · intro st uid files results wfail hpdf hres
    refine ⟨(uploadLoopAux uid files wfail 0 st results).1,
      (uploadLoopAux uid files wfail 0 st results).2, ?_, ?_⟩
    · simp only [uploadReceipts, find?_nonPdf_eq_none hpdf, if_neg hres]
    · exact uploadLoopAux_length uid files wfail results 0 st
  · intro st uid batch results wfail acc hloop hres
    by_cases hkeep : (dedupPartition (processedFilenames uid st) batch).2 = []
    · simp only [processPdfBatch, hkeep, if_pos rfl]
      simp [hkeep]
    · have hlen := batchLoop_ok_length uid wfail _ _ _ _ hloop
      simp only [processPdfBatch, if_neg hkeep, if_neg hres, hloop]
      simp [hlen, List.length_zip]

/-- Witness for C2 (amended): one file with one result in the upload path;
an empty store with one candidate whose extraction failed in the batch
path. -/
theorem c2_amended_alignment_witness :
    (∃ st2 outs,
      uploadReceipts emptyStore 1 ["a.pdf"] (.ok [sampleOkResult])
          (fun _ => false) = .ok (st2, outs) ∧
        outs.length = [sampleOkResult].length) ∧
    (processPdfBatch emptyStore 1 [⟨"a.pdf", none⟩]
        (.ok [⟨false, some "boom", none⟩]) (fun _ => false)).2.length =
      (dedupPartition (processedFilenames 1 emptyStore)
          [⟨"a.pdf", none⟩]).1.length +
        min (dedupPartition (processedFilenames 1 emptyStore)
            [⟨"a.pdf", none⟩]).2.length
          [(⟨false, some "boom", none⟩ : ApiResult)].length :=
  ⟨c2_amended_alignment.1 emptyStore 1 ["a.pdf"] [sampleOkResult]
      (fun _ => false) (by decide) (by simp),
   c2_amended_alignment.2 emptyStore 1 [⟨"a.pdf", none⟩]
      [⟨false, some "boom", none⟩] (fun _ => false)
      ([], [], [⟨false, "Extraction failed for a.pdf: boom", none⟩])
      (by rfl) (by simp)⟩

/-- One upload candidate's unit of work commits exactly when its outcome
reports success. -/
theorem processOneUpload_commit (uid rid : Nat) (fname : String)
    (r : ApiResult) (w : Bool) :
    ((processOneUpload uid rid fname r w).1.isSome) =
      (processOneUpload uid rid fname r w).2.success := by
  simp only [processOneUpload]
  iterate 8 (all_goals (try split))
  all_goals rfl

/-- The upload loop only ever appends to the committed store, and it
appends exactly one receipt row per successful outcome: a candidate whose
unit of work fails contributes nothing, and previously committed rows are
never removed. -/
theorem uploadLoopAux_commits (uid : Nat) (files : List String)
    (wfail : Nat → Bool) :
    ∀ (results : List ApiResult) (i : Nat) (st : Store),
      ∃ newRows newProds,
        (uploadLoopAux uid files wfail i st results).1.rows =
          st.rows ++ newRows ∧
        (uploadLoopAux uid files wfail i st results).1.products =
          st.products ++ newProds ∧
        newRows.length =
          ((uploadLoopAux uid files wfail i st results).2.filter
            (fun o => o.success)).length := by
  intro results
  induction results with
  | nil =>
    intro i st
    exact ⟨[], [], by simp [uploadLoopAux], by simp [uploadLoopAux],
      by simp [uploadLoopAux]⟩
  | cons r rest ih =>
    intro i st
    have hcommit := processOneUpload_commit uid st.nextId
      ((files.get? i).getD ("file_" ++ toString (i + 1))) r (wfail i)
    simp only [List.get?_eq_getElem?] at hcommit
    simp only [uploadLoopAux]
    cases hstep : (processOneUpload uid st.nextId
        ((files.get? i).getD ("file_" ++ toString (i + 1))) r (wfail i)).1 with
    | none =>
      simp only [List.get?_eq_getElem?] at hstep
      rw [hstep] at hcommit
      obtain ⟨nr, np, h1, h2, h3⟩ := ih (i + 1) st
      refine ⟨nr, np, ?_, ?_, ?_⟩ <;>
        simp [hstep, h1, h2, h3, List.filter, ← hcommit]
    | some rowProds =>
      obtain ⟨row, prods⟩ := rowProds
      simp only [List.get?_eq_getElem?] at hstep
      rw [hstep] at hcommit
      obtain ⟨nr, np, h1, h2, h3⟩ :=
        ih (i + 1) ⟨st.rows ++ [row], st.products ++ prods, st.nextId + 1⟩
      refine ⟨row :: nr, prods ++ np, ?_, ?_, ?_⟩ <;>
        simp [hstep, h1, h2, h3, List.filter, ← hcommit]

/-- C1, counterexample.  In the Outlook batch path all candidates share one
transaction committed only at the end of the batch (receipts.py line 1005),
and any write failure rolls the whole batch back (lines 1023-1033).  With
two fresh candidates, both extracted successfully, and a write failure
only at the second candidate (`wfail = (· = 1)`), the first candidate —
which suffered no write failure of its own — loses its writes (the store
is returned unchanged) and is reported as a `Failure`, contradicting the
claimed per-candidate unit of work. -/
theorem c1_batch_rollback_counterexample :
    (fun i => decide (i = 1)) 0 = false ∧
    processPdfBatch emptyStore 1 [⟨"a.pdf", none⟩, ⟨"b.pdf", none⟩]
        (.ok [sampleOkResult, sampleOkResult]) (fun i => decide (i = 1)) =
      (emptyStore,
        [⟨false, "Failed to process receipt a.pdf: database error", none⟩,
         ⟨false, "Failed to process receipt b.pdf: database error", none⟩]) := by
  exact ⟨rfl, rfl⟩

/-- C1, amended.  In the interactive upload path each candidate's receipt
and line-item writes are their own unit of work: the committed store only
grows, by exactly one receipt row per successful outcome, so a write
failure for one candidate removes nothing that earlier candidates
committed.  In the Outlook batch path (`process_pdf_batch`) the whole
batch after duplicate-skip shares a single transaction: if the batch loop
raises (write failure or payload `KeyError`), the store is returned
unchanged — including candidates that had already been flushed — and
every non-skipped candidate gets a `Failure` outcome. -/
theorem c1_amended_unit_of_work :
    (∀ (st : Store) (uid : Nat) (files : List String)
        (results : List ApiResult) (wfail : Nat → Bool) (i : Nat),
      ∃ newRows newProds,
        (uploadLoopAux uid files wfail i st results).1.rows =
          st.rows ++ newRows ∧
        (uploadLoopAux uid files wfail i st results).1.products =
          st.products ++ newProds ∧
        newRows.length =
          ((uploadLoopAux uid files wfail i st results).2.filter
            (fun o => o.success)).length) ∧
    (∀ (st : Store) (uid : Nat) (batch : List Candidate)
        (results : List ApiResult) (wfail : Nat → Bool) (e : String),
      batchLoop uid wfail 0 st.nextId
          ((dedupPartition (processedFilenames uid st) batch).2.zip results) =
        .error e →
      processPdfBatch st uid batch (.ok results) wfail =
        (st,
          (dedupPartition (processedFilenames uid st) batch).1.map dupResponse ++
            (dedupPartition (processedFilenames uid st) batch).2.map (fun c =>
              ⟨false, "Failed to process receipt " ++ c.filename ++ ": " ++ e,
                none⟩))) := by
  constructor
  · intro st uid files results wfail i
    exact uploadLoopAux_commits uid files wfail results i st
  · intro st uid batch results wfail e hloop
    have hzip : (dedupPartition (processedFilenames uid st) batch).2.zip results ≠ [] := by
      intro hz
      rw [hz] at hloop
      simp only [batchLoop] at hloop
      cases hloop
    have hkeep : (dedupPartition (processedFilenames uid st) batch).2 ≠ [] := by
      intro hk
      exact hzip (by rw [hk]; rfl)
    have hres : results ≠ [] := by
      intro hr
      exact hzip (by rw [hr]; simp)
    simp only [processPdfBatch, if_neg hkeep, if_neg hres, hloop]

/-- Witness for C1 (amended), batch conjunct: one fresh candidate whose
flush fails rolls the whole batch back and reports it failed. -/
theorem c1_amended_unit_of_work_witness :
    processPdfBatch emptyStore 1 [⟨"a.pdf", none⟩] (.ok [sampleOkResult])
        (fun _ => true) =
      (emptyStore,
        (dedupPartition (processedFilenames 1 emptyStore)
            [⟨"a.pdf", none⟩]).1.map dupResponse ++
          (dedupPartition (processedFilenames 1 emptyStore)
              [⟨"a.pdf", none⟩]).2.map (fun c =>
            ⟨false, "Failed to process receipt " ++ c.filename ++ ": " ++
              "database error", none⟩)) :=
  c1_amended_unit_of_work.2 emptyStore 1 [⟨"a.pdf", none⟩] [sampleOkResult]
    (fun _ => true) "database error" (by rfl)

/-- C8, counterexample.  The claim asserts that a file with a non-`.pdf`
name is rejected with a per-file error while the request as a whole still
returns HTTP success with one outcome per file.  The code instead raises
`HTTPException(400)` as soon as any filename fails the check (receipts.py
lines 79-84): submitting `["a.pdf", "b.txt"]` fails the entire HTTP call
and no per-file outcome list is produced — not even for `a.pdf`. -/
theorem c8_non_pdf_rejects_request :
    uploadReceipts emptyStore 1 ["a.pdf", "b.txt"]
        (.ok [sampleOkResult, sampleOkResult]) (fun _ => false) =
      .error ⟨400, "File b.txt is not a PDF. Only PDF files are allowed."⟩ := by
  rfl

/-- C8, amended.  When any submitted filename does not end in `.pdf`
(case-insensitively), the whole request is rejected with HTTP 400 naming
the first offending file; when every filename passes the check, the
endpoint always returns HTTP success with a list of per-file outcomes —
in particular, on a non-200 extractor status every submitted file gets its
own failure outcome. -/
theorem c8_amended_upload_http :
    (∀ (st : Store) (uid : Nat) (files : List String)
        (resp : ExtractorResponse) (wfail : Nat → Bool) (f : String),
      files.find? (fun g => !(isPdfName g)) = some f →
      uploadReceipts st uid files resp wfail =
        .error ⟨400, "File " ++ f ++ " is not a PDF. Only PDF files are allowed."⟩) ∧
    (∀ (st : Store) (uid : Nat) (files : List String)
        (resp : ExtractorResponse) (wfail : Nat → Bool),
      (∀ f ∈ files, isPdfName f = true) →
      ∃ st2 outs, uploadReceipts st uid files resp wfail = .ok (st2, outs)) ∧
    (∀ (st : Store) (uid : Nat) (files : List String) (code : Nat)
        (wfail : Nat → Bool),
      (∀ f ∈ files, isPdfName f = true) →
      uploadReceipts st uid files (.status code) wfail =
        .ok (st, files.map (fun fn =>
          ⟨false, "Failed to extract data from " ++ fn ++ ": API returned " ++
            toString code, none⟩))) := by
  refine ⟨?_, ?_, ?_⟩
  · intro st uid files resp wfail f h
    simp only [uploadReceipts, h]
  · intro st uid files resp wfail h
    cases resp with
    | networkError e =>
      refine ⟨st, files.map (fun fn =>
        ⟨false, "Failed to connect to PDF extraction service for " ++ fn ++
          ": " ++ e, none⟩), ?_⟩
      simp only [uploadReceipts, find?_nonPdf_eq_none h]
    | status code =>
      refine ⟨st, files.map (fun fn =>
        ⟨false, "Failed to extract data from " ++ fn ++ ": API returned " ++
          toString code, none⟩), ?_⟩
      simp only [uploadReceipts, find?_nonPdf_eq_none h]
    | badJson =>
      refine ⟨st, files.map (fun fn =>
        ⟨false, "Invalid response format from extraction service for " ++ fn,
          none⟩), ?_⟩
      simp only [uploadReceipts, find?_nonPdf_eq_none h]
    | ok results =>
      by_cases hres : results = []
      · refine ⟨st, files.map (fun fn =>
          ⟨false, "No data could be extracted from " ++ fn, none⟩), ?_⟩
        simp only [uploadReceipts, find?_nonPdf_eq_none h, if_pos hres]
      · refine ⟨(uploadLoopAux uid files wfail 0 st results).1,
          (uploadLoopAux uid files wfail 0 st results).2, ?_⟩
        simp only [uploadReceipts, find?_nonPdf_eq_none h, if_neg hres]
  · intro st uid files code wfail h
    simp only [uploadReceipts, find?_nonPdf_eq_none h]

/-- Witness for C8 (amended): `b.txt` rejects the whole request with 400;
an all-PDF upload against a 503 extractor returns per-file failures. -/
theorem c8_amended_upload_http_witness :
    uploadReceipts emptyStore 1 ["b.txt"] (.ok [sampleOkResult])
        (fun _ => false) =
      .error ⟨400, "File " ++ "b.txt" ++
        " is not a PDF. Only PDF files are allowed."⟩ ∧
    uploadReceipts emptyStore 1 ["a.pdf"] (.status 503) (fun _ => false) =
      .ok (emptyStore, ["a.pdf"].map (fun fn =>
        ⟨false, "Failed to extract data from " ++ fn ++ ": API returned " ++
          toString 503, none⟩)) :=
  ⟨c8_amended_upload_http.1 emptyStore 1 ["b.txt"] (.ok [sampleOkResult])
      (fun _ => false) "b.txt" (by rfl),
   c8_amended_upload_http.2.2 emptyStore 1 ["a.pdf"] 503 (fun _ => false)
      (by decide)⟩

/-- Whether all product rows can be built depends only on the payload, not
on the receipt id they will reference. -/
theorem mkProductRows_isSome_eq (rid : Nat) (ps : List ProductData) :
    (mkProductRows rid ps).isSome =
      ps.all (fun p => p.product_type.isSome && p.product.isSome &&
        p.quantity.isSome && p.price.isSome) := by
  induction ps with
  | nil => rfl
  | cons p ps ih =>
    simp only [mkProductRows, List.all_cons, ← ih]
    cases h1 : p.product_type <;> cases h2 : p.product <;>
      cases h3 : p.quantity <;> cases h4 : p.price <;>
      cases h5 : mkProductRows rid ps <;> simp_all

/-- A committed upload row always has a NULL dedup filename: the
interactive path's `Receipt(...)` constructor never sets `filename`
(receipts.py lines 242-251). -/
theorem processOneUpload_filename (uid rid : Nat) (fname : String)
    (r : ApiResult) (w : Bool) (row : ReceiptRow) (prods : List ProductRow)
    (h : (processOneUpload uid rid fname r w).1 = some (row, prods)) :
    row.filename = none ∧ row.user_id = uid ∧ row.id = rid := by
  simp only [processOneUpload] at h
  iterate 8 (all_goals (try split at h))
  all_goals simp_all
  all_goals
    obtain ⟨h1, h2⟩ := h
    subst h1
    exact ⟨rfl, rfl, rfl⟩

/-- Success of one upload candidate characterised by its payload alone. -/
theorem processOneUpload_success_iff (uid rid : Nat) (fname : String)
    (r : ApiResult) (w : Bool) :
    (processOneUpload uid rid fname r w).2.success = true ↔
      (r.success = true ∧
       requiredMissingUpload (r.receipt.getD {}) = [] ∧
       (parseDate uploadDateFormats
         ((r.receipt.getD {}).date.getD [])).isSome = true ∧
       (mkProductRows rid ((r.receipt.getD {}).products.getD [])).isSome = true ∧
       w = false) := by
  simp only [processOneUpload]
  iterate 8 (all_goals (try split))
  all_goals simp_all

/-- The success of an upload candidate does not depend on the receipt id
assigned at flush time. -/
theorem processOneUpload_success_rid (uid rid rid' : Nat) (fname : String)
    (r : ApiResult) (w : Bool) :
    (processOneUpload uid rid fname r w).2.success =
      (processOneUpload uid rid' fname r w).2.success := by
  have h1 := processOneUpload_success_iff uid rid fname r w
  have h2 := processOneUpload_success_iff uid rid' fname r w
  have hm : (mkProductRows rid ((r.receipt.getD {}).products.getD [])).isSome =
      (mkProductRows rid' ((r.receipt.getD {}).products.getD [])).isSome := by
    rw [mkProductRows_isSome_eq, mkProductRows_isSome_eq]
  cases hb : (processOneUpload uid rid fname r w).2.success <;>
    cases hb' : (processOneUpload uid rid' fname r w).2.success <;>
    simp_all

/-- Every receipt row present after the upload loop either was already in
the store or has a NULL dedup filename. -/
theorem uploadLoopAux_rows_filename (uid : Nat) (files : List String)
    (wfail : Nat → Bool) :
    ∀ (results : List ApiResult) (i : Nat) (st : Store) (r' : ReceiptRow),
      r' ∈ (uploadLoopAux uid files wfail i st results).1.rows →
      r' ∈ st.rows ∨ r'.filename = none := by
  intro results
  induction results with
  | nil =>
    intro i st r' h
    exact Or.inl (by simpa [uploadLoopAux] using h)
  | cons r rest ih =>
    intro i st r' h
    simp only [uploadLoopAux] at h
    cases hstep : (processOneUpload uid st.nextId
        ((files.get? i).getD ("file_" ++ toString (i + 1))) r (wfail i)).1 with
    | none =>
      rw [hstep] at h
      exact ih (i + 1) st r' h
    | some rowProds =>
      obtain ⟨row, prods⟩ := rowProds
      have hfn := (processOneUpload_filename uid st.nextId
        ((files.get? i).getD ("file_" ++ toString (i + 1))) r (wfail i)
        row prods (by simpa using hstep)).1
      rw [hstep] at h
      rcases ih (i + 1) ⟨st.rows ++ [row], st.products ++ prods, st.nextId + 1⟩
          r' h with hin | hname
      · rcases List.mem_append.mp hin with hl | hr
        · exact Or.inl hl
        · right
          rw [List.mem_singleton.mp hr]
          exact hfn
      · exact Or.inr hname

/-- The upload loop never enlarges any user's already-processed dedup key
set: every row it commits has a NULL filename. -/
theorem uploadLoopAux_processed (uid uid2 : Nat) (files : List String)
    (wfail : Nat → Bool) :
    ∀ (results : List ApiResult) (i : Nat) (st : Store),
      processedFilenames uid2 ((uploadLoopAux uid files wfail i st results).1) =
        processedFilenames uid2 st := by
  intro results
  induction results with
  | nil => intro i st; rfl
  | cons r rest ih =>
    intro i st
    simp only [uploadLoopAux]
    cases hstep : (processOneUpload uid st.nextId
        ((files.get? i).getD ("file_" ++ toString (i + 1))) r (wfail i)).1 with
    | none =>
      exact ih (i + 1) st
    | some rowProds =>
      obtain ⟨row, prods⟩ := rowProds
      have hfn := (processOneUpload_filename uid st.nextId
        ((files.get? i).getD ("file_" ++ toString (i + 1))) r (wfail i)
        row prods (by simpa using hstep)).1
      have hrec := ih (i + 1)
        ⟨st.rows ++ [row], st.products ++ prods, st.nextId + 1⟩
      exact hrec.trans
        (by simp [processedFilenames, List.filterMap_append, hfn])

/-- Any successful run of the upload endpoint leaves the store either
untouched or extended by the upload loop. -/
theorem uploadReceipts_ok_cases (st : Store) (uid : Nat) (files : List String)
    (resp : ExtractorResponse) (wfail : Nat → Bool) (st2 : Store)
    (outs : List UploadResponse)
    (h : uploadReceipts st uid files resp wfail = .ok (st2, outs)) :
    st2 = st ∨
      ∃ results, resp = .ok results ∧
        st2 = (uploadLoopAux uid files wfail 0 st results).1 := by
  cases hfind : files.find? (fun g => !(isPdfName g)) with
  | some g =>
    simp only [uploadReceipts, hfind] at h
    exact absurd h (by simp)
  | none =>
    simp only [uploadReceipts, hfind] at h
    cases resp with
    | status code =>
      simp only [Except.ok.injEq, Prod.mk.injEq] at h
      exact Or.inl h.1.symm
    | networkError e =>
      simp only [Except.ok.injEq, Prod.mk.injEq] at h
      exact Or.inl h.1.symm
    | badJson =>
      simp only [Except.ok.injEq, Prod.mk.injEq] at h
      exact Or.inl h.1.symm
    | ok results =>
      by_cases hres : results = []
      · subst hres
        simp only [ite_true, if_true, Except.ok.injEq, Prod.mk.injEq] at h
        exact Or.inl h.1.symm
      · simp only [if_neg hres, Except.ok.injEq] at h
        exact Or.inr ⟨results, rfl, (congrArg Prod.fst h).symm⟩

/-- C9.  Receipts created through the interactive upload endpoint are
persisted with a NULL `filename`: a successful upload never changes any
user's already-processed dedup key set, every row it adds has
`filename = NULL`, and re-uploading the same file twice therefore hits no
duplicate check — both runs succeed and each inserts one more Receipt row
(two distinct rows in total). -/
theorem c9_upload_null_filename :
    (∀ (st : Store) (uid uid2 : Nat) (files : List String)
        (resp : ExtractorResponse) (wfail : Nat → Bool) (st2 : Store)
        (outs : List UploadResponse),
      uploadReceipts st uid files resp wfail = .ok (st2, outs) →
      processedFilenames uid2 st2 = processedFilenames uid2 st) ∧
    (∀ (st : Store) (uid : Nat) (files : List String)
        (resp : ExtractorResponse) (wfail : Nat → Bool) (st2 : Store)
        (outs : List UploadResponse),
      uploadReceipts st uid files resp wfail = .ok (st2, outs) →
      ∀ r' ∈ st2.rows, r' ∈ st.rows ∨ r'.filename = none) ∧
    (∀ (st : Store) (uid : Nat) (f : String) (r : ApiResult)
        (w : Nat → Bool),
      (uploadReceipts st uid [f] (.ok [r]) w).toOption.map
          (fun p => p.2.map (fun o => o.success)) = some [true] →
      ((uploadReceipts st uid [f] (.ok [r]) w).toOption.bind (fun p =>
        (uploadReceipts p.1 uid [f] (.ok [r]) w).toOption.map (fun q =>
          (q.2.map (fun o => o.success), q.1.rows.length,
            p.1.rows.length)))) =
        some ([true], st.rows.length + 2, st.rows.length + 1)) := by
  refine ⟨?_, ?_, ?_⟩
  · intro st uid uid2 files resp wfail st2 outs h
    rcases uploadReceipts_ok_cases st uid files resp wfail st2 outs h with
      rfl | ⟨results, _, rfl⟩
    · rfl
    · exact uploadLoopAux_processed uid uid2 files wfail results 0 st
  · intro st uid files resp wfail st2 outs h r' hr
    rcases uploadReceipts_ok_cases st uid files resp wfail st2 outs h with
      rfl | ⟨results, _, rfl⟩
    · exact Or.inl hr
    · exact uploadLoopAux_rows_filename uid files wfail results 0 st r' hr
  · intro st uid f r w h1
    cases hfind : [f].find? (fun g => !(isPdfName g)) with
    | some g =>
      simp [uploadReceipts, hfind, Except.toOption] at h1
    | none =>
      have hne : ([r] : List ApiResult) ≠ [] := by simp
      simp only [uploadReceipts, hfind, if_neg hne, Except.toOption,
        uploadLoopAux, Option.map_some, Option.some_bind] at h1 ⊢
      have hf0 : (([f] : List String).get? 0).getD ("file_" ++ toString 1) = f := rfl
      rw [hf0] at h1 ⊢
      have hsucc : (processOneUpload uid st.nextId f r (w 0)).2.success = true := by
        simpa using h1
      have hcommit := processOneUpload_commit uid st.nextId f r (w 0)
      rw [hsucc] at hcommit
      obtain ⟨⟨row, prods⟩, hstep⟩ := Option.isSome_iff_exists.mp hcommit
      rw [hstep]
      dsimp only
      have hsucc2 : (processOneUpload uid (st.nextId + 1) f r (w 0)).2.success = true := by
        rw [processOneUpload_success_rid uid (st.nextId + 1) st.nextId f r (w 0)]
        exact hsucc
      have hcommit2 := processOneUpload_commit uid (st.nextId + 1) f r (w 0)
      rw [hsucc2] at hcommit2
      obtain ⟨⟨row2, prods2⟩, hstep2⟩ := Option.isSome_iff_exists.mp hcommit2
      rw [hstep2]
      simp [hsucc2, List.length_append]

/-- Witness for C9: uploading `a.pdf` twice against an empty store — both
runs succeed and the store grows by one row each time. -/
theorem c9_upload_null_filename_witness :
    ((uploadReceipts emptyStore 1 ["a.pdf"] (.ok [sampleOkResult])
        (fun _ => false)).toOption.bind (fun p =>
      (uploadReceipts p.1 1 ["a.pdf"] (.ok [sampleOkResult])
          (fun _ => false)).toOption.map (fun q =>
        (q.2.map (fun o => o.success), q.1.rows.length,
          p.1.rows.length)))) =
      some ([true], emptyStore.rows.length + 2, emptyStore.rows.length + 1) :=
  c9_upload_null_filename.2.2 emptyStore 1 "a.pdf" sampleOkResult
    (fun _ => false) (by decide)

/-- C10.  Every receipt read, list, and delete operation is scoped to the
authenticated user: a looked-up receipt always belongs to the requester
and carries the requested id; when no row with the requested id belongs to
the requester (e.g. it is another user's receipt), the lookup is empty and
the delete route answers 404 leaving all receipt rows and line items
unchanged; and every row served by the list endpoint belongs to the
requester. -/
theorem c10_user_scoping :
    (∀ (uid rid : Nat) (st : Store) (row : ReceiptRow),
      getReceipt uid rid st = some row → row.user_id = uid ∧ row.id = rid) ∧
    (∀ (uid rid : Nat) (st : Store),
      (∀ row ∈ st.rows, row.id = rid → row.user_id ≠ uid) →
      getReceipt uid rid st = none) ∧
    (∀ (uid rid : Nat) (st : Store),
      getReceipt uid rid st = none →
      deleteReceipt uid rid st = (st, .error ⟨404, "Receipt not found"⟩)) ∧
    (∀ (uid page perPage : Nat) (st : Store) (row : ReceiptRow),
      row ∈ getReceiptsPage uid page perPage st → row.user_id = uid) := by
  refine ⟨?_, ?_, ?_, ?_⟩
  · intro uid rid st row h
    have hp := List.find?_some h
    simp only [Bool.and_eq_true, beq_iff_eq] at hp
    exact ⟨hp.2, hp.1⟩
  · intro uid rid st h
    apply List.find?_eq_none.mpr
    intro x hx
    simp only [Bool.and_eq_true, beq_iff_eq, not_and]
    intro h1 h2
    exact h x hx h1 h2
  · intro uid rid st h
    simp only [deleteReceipt, h]
  · intro uid page perPage st row h
    have h1 := List.mem_of_mem_take h
    have h2 := List.mem_of_mem_drop h1
    have h3 := (List.mem_filter.mp h2).2
    simpa using h3

/-- Witness for C10: a store holding one receipt (id 1) owned by user 2;
user 1's lookup of id 1 is empty and user 1's delete answers 404 with the
store (rows and products) unchanged. -/
theorem c10_user_scoping_witness :
    getReceipt 1 1 ⟨[⟨1, "M", "B", none, ⟨17, 9, 2024⟩, 10, 0, 10, none, 2⟩],
        [⟨"t", "p", 1, 10, 0, 0, 1⟩], 2⟩ = none ∧
    deleteReceipt 1 1 ⟨[⟨1, "M", "B", none, ⟨17, 9, 2024⟩, 10, 0, 10, none, 2⟩],
        [⟨"t", "p", 1, 10, 0, 0, 1⟩], 2⟩ =
      (⟨[⟨1, "M", "B", none, ⟨17, 9, 2024⟩, 10, 0, 10, none, 2⟩],
        [⟨"t", "p", 1, 10, 0, 0, 1⟩], 2⟩, .error ⟨404, "Receipt not found"⟩) := by
  have h := c10_user_scoping.2.1 1 1
    ⟨[⟨1, "M", "B", none, ⟨17, 9, 2024⟩, 10, 0, 10, none, 2⟩],
      [⟨"t", "p", 1, 10, 0, 0, 1⟩], 2⟩ (by decide)
  exact ⟨h, c10_user_scoping.2.2.1 1 1 _ h⟩
